import Mathlib

set_option autoImplicit false

/-!
Shallow embedding of the zip-worker edge search proxy (Cloudflare Worker,
direct MongoDB-driver variant).  Requests, environments, responses and the
cache are modelled as explicit data; the platform cache is a lookup
function from key URLs to stored responses.  JavaScript `string | null`
values are `Option String`, JS truthiness of such a value is `truthy`,
and a response body is kept semantically (`Body`) so that `response.json()`
can be modelled without a JSON parser: a body produced by
`JSON.stringify({ results })` is `Body.jsonResults results`, a plain-text
body parses as invalid JSON, and `Body.jsonFalsy` stands for a body whose
JSON value is falsy (exercising the `|| []` default in `processResults`).
-/

namespace ZipWorker

/-- Environment bindings of the worker: `MONGODB_URI`, `DOMAIN`, `CACHE_TTL`. -/
structure Env where
  mongoUri : String
  domain : String
  cacheTtlStr : String
deriving DecidableEq

/-- The two recognised query-string parameters, as `URLSearchParams.get`
returns them: `none` when the parameter is absent, `some v` (possibly
`some ""`) when present. -/
structure Params where
  query : Option String
  search : Option String
deriving DecidableEq

/-- The request data the handler reads: method, the `origin` header
(`request.headers.get('origin')`), and the query-string parameters. -/
structure Req where
  method : String
  origin : Option String
  params : Params
deriving DecidableEq

/-- One search result row: `{ zip, name }`. -/
structure SearchResult where
  zip : String
  name : String
deriving DecidableEq

/-- The `SearchQuery` object built in `fetch`:
`{ search: query ?? search, autocomplete: query !== null ? 1 : 0 }`. -/
structure SearchQuery where
  search : String
  autocomplete : Nat
deriving DecidableEq

/-- A JSON value that can flow through the untyped `results` position:
either an array of result rows, or the wrapper object `\x7b results: v \x7d`
that `JSON.stringify({ results })` serializes and `response.json()` parses
back.  The TypeScript annotation `Array<SearchResult>` is only a cast, so
a wrapper object passes through `buildResultsResponse` unchecked — which
is exactly what happens on a cache hit. -/
inductive JsVal where
  | arr (rows : List SearchResult) : JsVal
  | wrap (v : JsVal) : JsVal
deriving DecidableEq

/-- Semantic view of a `Response` body. -/
inductive Body where
  /-- A `null` body (`new Response(null, ...)`). -/
  | noBody : Body
  /-- A plain-text body; not valid JSON, so `response.json()` throws on it
  (all text bodies the worker builds are of this kind). -/
  | text (s : String) : Body
  /-- A body whose JSON parse succeeds but yields a falsy value. -/
  | jsonFalsy : Body
  /-- A JSON body; `response.json()` yields the carried value. -/
  | jsonVal (v : JsVal) : Body
deriving DecidableEq

/-- A built `Response`: status, body, and headers in insertion order. -/
structure Resp where
  status : Nat
  body : Body
  headers : List (String × String)
deriving DecidableEq

/-- Errors thrown by `processResults`. -/
inductive BackendErr where
  | unexpectedCall : BackendErr
  | invalidResponse : BackendErr
deriving DecidableEq

/-- Error thrown by `searchZipCodes` (`'Database query failed'`). -/
inductive DbError where
  | queryFailed : DbError
deriving DecidableEq

/-- A document of the `zip.zip` MongoDB collection.  Besides the projected
`zip` and `name` fields it carries the `_id` (here `objectId`) and a
further field, so that the projection in `searchZipCodes` is observable. -/
structure ZipDoc where
  objectId : Nat
  zip : String
  name : String
  state : String
deriving DecidableEq

/-- The backend database: either reachable with a document list, or down
(any connect/query error, which `searchZipCodes` turns into a throw). -/
inductive DB where
  | up (docs : List ZipDoc) : DB
  | down : DB

/-- Outcome of the `fetch` promise: a response, or a rejection with an
uncaught thrown error. -/
inductive HandlerResult where
  | ok (r : Resp) : HandlerResult
  | thrown (e : BackendErr) : HandlerResult
deriving DecidableEq

/-- Observable outcome of one `fetch` invocation: the handler result, the
`(searchTerm, isAutocomplete)` pair `searchZipCodes` was invoked with (if
it was), and the key/response pair passed to `cache.put` (if any). -/
structure FetchOut where
  resp : HandlerResult
  backendQuery : Option (String × Bool)
  storePut : Option (String × Resp)
deriving DecidableEq

/-- JS truthiness of a `string | null` value: `null` and `""` are falsy. -/
def truthy : Option String → Bool
  | none => false
  | some s => s != ""

/-- Embeds `setCorsHeaders`. -/
def setCorsHeaders (origin : String) : List (String × String) :=
  [("access-control-allow-origin", origin),
   ("access-control-allow-methods", "GET, HEAD, OPTIONS"),
   ("access-control-max-age", "86400")]

/-- Embeds `hasValidOrigin`: `request.headers.get('origin') === env.DOMAIN`
(strict equality; an absent header is `null` and never equal to a string). -/
def hasValidOrigin (req : Req) (env : Env) : Bool :=
  req.origin == some env.domain

/-- Embeds `buildResponse`: passing no headers defaults to a plain-text
content type (`headers ?? { 'content-type': 'text/plain' }`). -/
def buildResponse (status : Nat) (message : Body)
    (headers : Option (List (String × String))) : Resp :=
  { status := status, body := message,
    headers := headers.getD [("content-type", "text/plain")] }

/-- String form of `JSON.stringify` on one result object. -/
def stringifyResult (r : SearchResult) : String :=
  "\x7b\"zip\":\"" ++ r.zip ++ "\",\"name\":\"" ++ r.name ++ "\"\x7d"

/-- String form of `JSON.stringify` on a `JsVal`. -/
def stringifyJsVal : JsVal → String
  | .arr rows => "[" ++ String.intercalate "," (rows.map stringifyResult) ++ "]"
  | .wrap v => "\x7b\"results\":" ++ stringifyJsVal v ++ "\x7d"

/-- The concrete body string of a `Body` (what goes over the wire). -/
def bodyString : Body → Option String
  | .noBody => none
  | .text s => some s
  | .jsonFalsy => some "null"
  | .jsonVal v => some (stringifyJsVal v)

/-- Embeds `buildResultsResponse`: JSON content type, `cache-control`
derived from the TTL, and CORS headers spread in only when `origin` is
truthy (`...(origin ? setCorsHeaders(origin) : {})`).  The body is
`JSON.stringify({ results })`, i.e. the wrapper object around whatever
value was passed in the untyped `results` position. -/
def buildResultsResponse (results : JsVal) (origin : Option String)
    (cacheTtl : Int) : Resp :=
  let headers :=
    [("content-type", "application/json"),
     ("cache-control", "public, maxage=" ++ toString cacheTtl ++ ", immutable")]
    ++ (if truthy origin then setCorsHeaders (origin.getD "") else [])
  buildResponse 200 (.jsonVal (.wrap results)) (some headers)

/-- Embeds `processResults`: a missing response throws
`'Unexpected function call'`; `(await response.json()) || []` yields the
parsed JSON value as is when it is truthy (for a body the worker itself
stored, that is the wrapper object, not the bare array — the cast to
`Array<SearchResult>` checks nothing) or `[]` on a falsy JSON value, and
a body that fails to parse throws `'Invalid response'`. -/
def processResults : Option Resp → Except BackendErr JsVal
  | none => .error .unexpectedCall
  | some response =>
    match response.body with
    | .jsonVal v => .ok v
    | .jsonFalsy => .ok (.arr [])
    | .noBody => .error .invalidResponse
    | .text _ => .error .invalidResponse

/-- The `entry` value of `detectEdgeCases`:
`query?.length ? query : search` (the `query` branch is taken exactly when
`query` is non-null with nonzero length, i.e. truthy). -/
def entryOf (p : Params) : String :=
  if truthy p.query then p.query.getD "" else p.search.getD ""

/-- The three outcomes of `detectEdgeCases`: throw `'Bad Request'`,
return `null` (short-circuit to an empty result set), or return
`undefined` (fall through to the search). -/
inductive EdgeCase where
  | badRequest : EdgeCase
  | shortCircuitEmpty : EdgeCase
  | proceed : EdgeCase
deriving DecidableEq

/-- Embeds `detectEdgeCases` (`!query && !search` and `query && search`
are JS-truthiness tests, so an empty string counts like an absent one). -/
def detectEdgeCases (p : Params) : EdgeCase :=
  if !(truthy p.query) && !(truthy p.search) then .badRequest
  else if truthy p.query && truthy p.search then .badRequest
  else if (entryOf p).length < 3 then .shortCircuitEmpty
  else .proceed

/-- Embeds `handleOptions`: both branches (matched origin or not) build
the same response carrying `setCorsHeaders(env.DOMAIN)`. -/
def handleOptions (req : Req) (env : Env) : Resp :=
  if hasValidOrigin req env then
    { status := 200, body := .noBody, headers := setCorsHeaders env.domain }
  else
    { status := 200, body := .noBody, headers := setCorsHeaders env.domain }

/-- Characters of a string, lower-cased (for the `$options: 'i'` regex). -/
def lowerChars (s : String) : List Char :=
  s.data.map Char.toLower

/-- Case-insensitive containment of `needle` in `haystack`, modelling the
`{ name: { $regex: searchTerm, $options: 'i' } }` match for a term without
regex metacharacters (the empty term matches everything, as `$regex` does). -/
def containsCI (haystack needle : String) : Bool :=
  decide (lowerChars needle <:+: lowerChars haystack)

/-- The find filter of `searchZipCodes` applied to one document. -/
def nameMatches (searchTerm : String) (d : ZipDoc) : Bool :=
  containsCI d.name searchTerm

/-- The projection `{ _id: 0, name: 1, zip: 1 }`: only `zip` and `name`
survive. -/
def projectDoc (d : ZipDoc) : SearchResult :=
  { zip := d.zip, name := d.name }

/-- Embeds `searchZipCodes`: on a reachable database, filter by the
case-insensitive name match, project to `zip`/`name`, and keep at most
`10` rows when `isAutocomplete` else `50`; any database failure is thrown
(`'Database query failed'`). -/
def searchZipCodes (searchTerm : String) (isAutocomplete : Bool) (db : DB) :
    Except DbError (List SearchResult) :=
  match db with
  | .down => .error .queryFailed
  | .up docs =>
    let limit := if isAutocomplete then 10 else 50
    .ok (((docs.filter (nameMatches searchTerm)).map projectDoc).take limit)

/-- Embeds `getCacheKey`: a fixed namespace prefix plus the raw term; the
`autocomplete` field is not consulted. -/
def getCacheKey (searchQuery : SearchQuery) : String :=
  "zip-search:" ++ searchQuery.search

/-- The `searchQuery` object built in `fetch`:
`search: query ?? search` (nullish coalescing: the `query` value wins
whenever it is non-null, even when empty) and
`autocomplete: query !== null ? 1 : 0`. -/
def searchQueryOf (p : Params) : SearchQuery :=
  { search := match p.query with | some q => q | none => p.search.getD ""
    autocomplete := if p.query.isSome then 1 else 0 }

/-- URL of the synthetic cache-key `Request`:
`https://cache.internal/${getCacheKey(searchQuery)}`. -/
def cacheKeyRequestUrl (p : Params) : String :=
  "https://cache.internal/" ++ getCacheKey (searchQueryOf p)

/-- JS `StrWhiteSpace` characters skipped by `parseInt` (the common ones). -/
def isJsWhitespace (c : Char) : Bool :=
  c = ' ' || c = '\t' || c = '\n' || c = '\r' || c = Char.ofNat 11 || c = Char.ofNat 12

/-- Value of a longest leading digit run, or `none` when there is none. -/
def digitsVal (l : List Char) : Option Nat :=
  let ds := l.takeWhile (fun c => c.isDigit)
  if ds.isEmpty then none
  else some (ds.foldl (fun n c => n * 10 + (c.toNat - '0'.toNat)) 0)

/-- Embeds JS `parseInt(s, 10)`: skip leading whitespace, read an optional
sign, then the longest digit prefix; `none` models `NaN`. -/
def parseIntBase10 (s : String) : Option Int :=
  match s.data.dropWhile isJsWhitespace with
  | [] => none
  | c :: rest =>
    if c = '-' then (digitsVal rest).map (fun n => -(n : Int))
    else if c = '+' then (digitsVal rest).map (fun n => (n : Int))
    else (digitsVal (c :: rest)).map (fun n => (n : Int))

/-- Embeds the TTL computation in `fetch`:
`isNaN(parseInt(env.CACHE_TTL, 10)) ? 300 : parseInt(env.CACHE_TTL, 10)`. -/
def cacheTtlOf (s : String) : Int :=
  match parseIntBase10 s with
  | none => 300
  | some n => n

/-- The `origin` value of `fetch`:
`hasValidOrigin(request, env) ? env.DOMAIN : null`. -/
def originOf (req : Req) (env : Env) : Option String :=
  if hasValidOrigin req env then some env.domain else none

/-- Embeds the default-exported `fetch` handler of the worker, recording
besides the response whether/how the backend was queried and what was
stored in the cache.  The platform cache is the lookup function `cache`;
a `cache.put` is recorded in `storePut` (it is dispatched through
`ctx.waitUntil` and not awaited, but attempted exactly where recorded). -/
def fetchHandler (req : Req) (env : Env) (db : DB)
    (cache : String → Option Resp) : FetchOut :=
  if req.method = "OPTIONS" then
    { resp := .ok (handleOptions req env), backendQuery := none, storePut := none }
  else if ¬(req.method = "GET" ∨ req.method = "HEAD") then
    { resp := .ok (buildResponse 405 (.text "Method Not Allowed") none),
      backendQuery := none, storePut := none }
  else
    let origin := originOf req env
    if req.method = "HEAD" then
      { resp := .ok (buildResponse 200 .noBody (some (setCorsHeaders env.domain))),
        backendQuery := none, storePut := none }
    else
      let cacheTtl := cacheTtlOf env.cacheTtlStr
      match detectEdgeCases req.params with
      | .badRequest =>
        { resp := .ok (buildResponse 400 (.text "Bad Request") none),
          backendQuery := none, storePut := none }
      | .shortCircuitEmpty =>
        { resp := .ok (buildResultsResponse (.arr []) origin cacheTtl),
          backendQuery := none, storePut := none }
      | .proceed =>
        let searchQuery := searchQueryOf req.params
        let cacheKey := cacheKeyRequestUrl req.params
        match cache cacheKey with
        | some cachedResponse =>
          match processResults (some cachedResponse) with
          | .error e =>
            { resp := .thrown e, backendQuery := none, storePut := none }
          | .ok results =>
            { resp := .ok (buildResultsResponse results origin cacheTtl),
              backendQuery := none, storePut := none }
        | none =>
          match searchZipCodes searchQuery.search (searchQuery.autocomplete == 1) db with
          | .error _ =>
            { resp := .ok (buildResponse 500 (.text "Internal Server Error") none),
              backendQuery := some (searchQuery.search, searchQuery.autocomplete == 1),
              storePut := none }
          | .ok results =>
            let response := buildResultsResponse (.arr results) origin cacheTtl
            { resp := .ok response,
              backendQuery := some (searchQuery.search, searchQuery.autocomplete == 1),
              storePut := some (cacheKey, response) }

/-- Status of the settled handler outcome (`none` when the promise was
rejected by an uncaught throw). -/
def statusOf (out : FetchOut) : Option Nat :=
  match out.resp with
  | .ok r => some r.status
  | .thrown _ => none

/-- Body string of the settled handler outcome. -/
def bodyOf (out : FetchOut) : Option String :=
  match out.resp with
  | .ok r => bodyString r.body
  | .thrown _ => none

/-- Whether a response carries any access-control header (a header whose
name begins with the `access-control-` prefix). -/
def hasAccessControl (r : Resp) : Bool :=
  r.headers.any (fun kv => decide ("access-control-".data <+: kv.1.data))

/-- `hasAccessControl` of the response, when the handler produced one. -/
def acOf (out : FetchOut) : Option Bool :=
  match out.resp with
  | .ok r => some (hasAccessControl r)
  | .thrown _ => none

/-! ## Helper lemmas -/

/-- Both branches of `handleOptions` build the same response. -/
theorem handleOptions_eq (req : Req) (env : Env) :
    handleOptions req env =
      { status := 200, body := .noBody, headers := setCorsHeaders env.domain } := by
  unfold handleOptions
  split <;> rfl

/-! ## Claims -/

/-- C4: `getCacheKey` is a deterministic function of the raw search term
alone — two `SearchQuery` values with the same `search` field give the
identical key whatever their `autocomplete` flags, and the key is the
fixed namespace prefix `zip-search:` concatenated with the raw term. -/
theorem c4_cache_key_deterministic (sq1 sq2 : SearchQuery)
    (h : sq1.search = sq2.search) :
    getCacheKey sq1 = getCacheKey sq2 ∧
      getCacheKey sq1 = "zip-search:" ++ sq1.search := by
  exact ⟨by simp [getCacheKey, h], rfl⟩

/-- C4 witness: the same term with the two different autocomplete flags. -/
theorem c4_cache_key_deterministic_witness :
    getCacheKey ⟨"springfield", 1⟩ = getCacheKey ⟨"springfield", 0⟩ ∧
      getCacheKey ⟨"springfield", 1⟩ = "zip-search:" ++ "springfield" :=
  c4_cache_key_deterministic ⟨"springfield", 1⟩ ⟨"springfield", 0⟩ rfl

/-- C8: in direct-driver mode, `searchZipCodes` returns at most 10 rows
when `isAutocomplete` is true and at most 50 otherwise, and every row is
the `zip`/`name`-only projection of some document of the collection. -/
theorem c8_limit_and_projection (searchTerm : String) (isAutocomplete : Bool)
    (docs : List ZipDoc) (rs : List SearchResult)
    (h : searchZipCodes searchTerm isAutocomplete (.up docs) = .ok rs) :
    rs.length ≤ (if isAutocomplete then 10 else 50) ∧
      ∀ r ∈ rs, ∃ d ∈ docs, r = projectDoc d := by
  have hrs : rs =
      ((docs.filter (nameMatches searchTerm)).map projectDoc).take
        (if isAutocomplete then 10 else 50) := by
    simpa [searchZipCodes] using h.symm
  subst hrs
  refine ⟨?_, ?_⟩
  · rw [List.length_take]
    exact min_le_left _ _
  · intro r hr
    rcases List.mem_map.mp (List.mem_of_mem_take hr) with ⟨d, hd, hproj⟩
    exact ⟨d, List.mem_of_mem_filter hd, hproj.symm⟩

/-- C8 witness: a one-document collection in autocomplete mode. -/
theorem c8_limit_and_projection_witness :
    ([({ zip := "01001", name := "Springfield" } : SearchResult)]).length ≤
        (if true then 10 else 50) ∧
      ∀ r ∈ [({ zip := "01001", name := "Springfield" } : SearchResult)],
        ∃ d ∈ [({ objectId := 1, zip := "01001", name := "Springfield",
                  state := "MA" } : ZipDoc)], r = projectDoc d :=
  c8_limit_and_projection "spring" true
    [{ objectId := 1, zip := "01001", name := "Springfield", state := "MA" }]
    [{ zip := "01001", name := "Springfield" }] rfl

/-- C9: two OPTIONS requests that differ only in their `Origin` header
(one may have none at all) get identical responses from the handler, and
the response carries an `Access-Control-Allow-Origin` header naming the
configured domain. -/
theorem c9_options_origin_independent (env : Env) (r1 r2 : Req) (db1 db2 : DB)
    (c1 c2 : String → Option Resp)
    (h1 : r1.method = "OPTIONS") (h2 : r2.method = "OPTIONS")
    (_hp : r1.params = r2.params) :
    fetchHandler r1 env db1 c1 = fetchHandler r2 env db2 c2 ∧
      ("access-control-allow-origin", env.domain) ∈ (handleOptions r1 env).headers := by
  constructor
  · simp [fetchHandler, h1, h2, handleOptions_eq]
  · rw [handleOptions_eq]
    simp [setCorsHeaders]

/-- C9 witness: a mismatched origin versus an absent one. -/
theorem c9_options_origin_independent_witness :
    fetchHandler ⟨"OPTIONS", some "https://evil.example", ⟨none, none⟩⟩
        ⟨"mongodb://db", "https://app.example", "300"⟩ (.up []) (fun _ => none)
      = fetchHandler ⟨"OPTIONS", none, ⟨none, none⟩⟩
        ⟨"mongodb://db", "https://app.example", "300"⟩ .down (fun _ => none) ∧
    ("access-control-allow-origin", "https://app.example") ∈
      (handleOptions ⟨"OPTIONS", some "https://evil.example", ⟨none, none⟩⟩
        ⟨"mongodb://db", "https://app.example", "300"⟩).headers :=
  c9_options_origin_independent ⟨"mongodb://db", "https://app.example", "300"⟩
    ⟨"OPTIONS", some "https://evil.example", ⟨none, none⟩⟩
    ⟨"OPTIONS", none, ⟨none, none⟩⟩ (.up []) .down (fun _ => none) (fun _ => none)
    rfl rfl rfl

/-- C7: `processResults` throws `UnexpectedCall` exactly on a missing
response; every other failure of it is `InvalidResponse`; and on a cache
miss a backend failure is answered by the handler with status 500. -/
theorem c7_error_taxonomy :
    (∀ r : Option Resp, processResults r = .error .unexpectedCall ↔ r = none) ∧
    (∀ (resp : Resp) (e : BackendErr),
        processResults (some resp) = .error e → e = .invalidResponse) ∧
    (∀ (req : Req) (env : Env) (cache : String → Option Resp),
        req.method = "GET" → detectEdgeCases req.params = .proceed →
        cache (cacheKeyRequestUrl req.params) = none →
        statusOf (fetchHandler req env .down cache) = some 500) := by
  refine ⟨?_, ?_, ?_⟩
  · intro r
    cases r with
    | none => simp [processResults]
    | some resp => cases hb : resp.body <;> simp [processResults, hb]
  · intro resp e h
    cases hb : resp.body <;> simp [processResults, hb] at h
    all_goals exact h.symm
  · intro req env cache hm hedge hc
    simp [fetchHandler, hm, hedge, hc, searchZipCodes, statusOf, buildResponse]

/-- C7 witness: the three failure shapes at concrete inputs. -/
theorem c7_error_taxonomy_witness :
    processResults (none : Option Resp) = .error .unexpectedCall ∧
    (BackendErr.invalidResponse = .invalidResponse) ∧
    statusOf (fetchHandler ⟨"GET", none, ⟨some "abc", none⟩⟩
        ⟨"mongodb://db", "https://app.example", "300"⟩ .down (fun _ => none))
      = some 500 :=
  ⟨(c7_error_taxonomy.1 none).mpr rfl,
   c7_error_taxonomy.2.1 ⟨200, .text "Bad Request", []⟩ .invalidResponse rfl,
   c7_error_taxonomy.2.2 ⟨"GET", none, ⟨some "abc", none⟩⟩
     ⟨"mongodb://db", "https://app.example", "300"⟩ (fun _ => none) rfl rfl rfl⟩

/-- C1 counterexample: a GET request in which both parameters are present
(`query` with the empty value, `search` with `springfield`) is not
rejected — the handler answers 200 and does contact the backend, because
`detectEdgeCases` tests JS truthiness, not presence. -/
theorem c1_counterexample :
    (Params.mk (some "") (some "springfield")).query.isSome = true ∧
    (Params.mk (some "") (some "springfield")).search.isSome = true ∧
    statusOf (fetchHandler ⟨"GET", none, ⟨some "", some "springfield"⟩⟩
        ⟨"mongodb://db", "https://app.example", "300"⟩
        (.up [⟨1, "01001", "Springfield", "MA"⟩]) (fun _ => none)) = some 200 ∧
    (fetchHandler ⟨"GET", none, ⟨some "", some "springfield"⟩⟩
        ⟨"mongodb://db", "https://app.example", "300"⟩
        (.up [⟨1, "01001", "Springfield", "MA"⟩]) (fun _ => none)).backendQuery
      ≠ none := by
  exact ⟨rfl, rfl, rfl, by decide⟩

/-- C1 (amended): for every GET request in which both `query` and `search`
are absent **or empty** (JS-falsy), and for every GET request in which
both are present **with non-empty values** (JS-truthy), the handler
returns status 400 and does not contact the backend. -/
theorem c1_bad_request (req : Req) (env : Env) (db : DB)
    (cache : String → Option Resp) (hm : req.method = "GET")
    (h : (truthy req.params.query = false ∧ truthy req.params.search = false) ∨
         (truthy req.params.query = true ∧ truthy req.params.search = true)) :
    statusOf (fetchHandler req env db cache) = some 400 ∧
      (fetchHandler req env db cache).backendQuery = none := by
  have hedge : detectEdgeCases req.params = .badRequest := by
    rcases h with ⟨h1, h2⟩ | ⟨h1, h2⟩ <;> simp [detectEdgeCases, h1, h2]
  constructor <;> simp [fetchHandler, hm, hedge, statusOf, buildResponse]

/-- C1 witness: both parameters absent. -/
theorem c1_bad_request_witness :
    statusOf (fetchHandler ⟨"GET", none, ⟨none, none⟩⟩
        ⟨"mongodb://db", "https://app.example", "300"⟩ (.up []) (fun _ => none))
      = some 400 ∧
    (fetchHandler ⟨"GET", none, ⟨none, none⟩⟩
        ⟨"mongodb://db", "https://app.example", "300"⟩ (.up []) (fun _ => none)).backendQuery
      = none :=
  c1_bad_request ⟨"GET", none, ⟨none, none⟩⟩
    ⟨"mongodb://db", "https://app.example", "300"⟩ (.up []) (fun _ => none)
    rfl (.inl ⟨rfl, rfl⟩)

/-- C2 counterexample: a GET request carrying exactly one of the two
parameters (`query`, with the empty value, of length 0 < 3) is answered
with 400, not with a 200 empty result list: `detectEdgeCases` treats the
empty value like an absent parameter and throws `Bad Request`. -/
theorem c2_counterexample :
    (Params.mk (some "") none).query.isSome = true ∧
    (Params.mk (some "") none).search.isSome = false ∧
    ("" : String).length < 3 ∧
    statusOf (fetchHandler ⟨"GET", none, ⟨some "", none⟩⟩
        ⟨"mongodb://db", "https://app.example", "300"⟩ (.up []) (fun _ => none))
      = some 400 := by
  exact ⟨rfl, rfl, by decide, rfl⟩

/-- C2 (amended): for every GET request carrying exactly one **non-empty**
value among `query`/`search` whose value has length strictly less than 3,
the handler returns status 200 with body exactly `{"results":[]}` and
never invokes the backend. -/
theorem c2_short_input_short_circuit (req : Req) (env : Env) (db : DB)
    (cache : String → Option Resp) (hm : req.method = "GET")
    (hx : truthy req.params.query ≠ truthy req.params.search)
    (hlen : (entryOf req.params).length < 3) :
    statusOf (fetchHandler req env db cache) = some 200 ∧
    bodyOf (fetchHandler req env db cache) = some "\x7b\"results\":[]\x7d" ∧
    (fetchHandler req env db cache).backendQuery = none := by
  have hedge : detectEdgeCases req.params = .shortCircuitEmpty := by
    cases h1 : truthy req.params.query <;> cases h2 : truthy req.params.search <;>
      simp [h1, h2] at hx ⊢ <;> simp [detectEdgeCases, h1, h2, hlen]
  have hout : fetchHandler req env db cache =
      { resp := .ok (buildResultsResponse (.arr []) (originOf req env)
          (cacheTtlOf env.cacheTtlStr)),
        backendQuery := none, storePut := none } := by
    simp [fetchHandler, hm, hedge]
  rw [hout]
  refine ⟨rfl, ?_, rfl⟩
  show bodyString (Body.jsonVal (.wrap (.arr []))) = some "\x7b\"results\":[]\x7d"
  decide

/-- C2 witness: `search=ab`. -/
theorem c2_short_input_short_circuit_witness :
    statusOf (fetchHandler ⟨"GET", none, ⟨none, some "ab"⟩⟩
        ⟨"mongodb://db", "https://app.example", "300"⟩ (.up []) (fun _ => none))
      = some 200 ∧
    bodyOf (fetchHandler ⟨"GET", none, ⟨none, some "ab"⟩⟩
        ⟨"mongodb://db", "https://app.example", "300"⟩ (.up []) (fun _ => none))
      = some "\x7b\"results\":[]\x7d" ∧
    (fetchHandler ⟨"GET", none, ⟨none, some "ab"⟩⟩
        ⟨"mongodb://db", "https://app.example", "300"⟩ (.up []) (fun _ => none)).backendQuery
      = none :=
  c2_short_input_short_circuit ⟨"GET", none, ⟨none, some "ab"⟩⟩
    ⟨"mongodb://db", "https://app.example", "300"⟩ (.up []) (fun _ => none)
    rfl (by decide) (by decide)

/-- C10 counterexample: with `query` present but empty and
`search=springfield`, the backend is invoked with the **empty** term (the
nullish coalescing `query ?? search` picks the empty `query` value), not
with the `search` value, refuting that the `search` value is used as the
effective search term. -/
theorem c10_counterexample :
    (fetchHandler ⟨"GET", none, ⟨some "", some "springfield"⟩⟩
        ⟨"mongodb://db", "https://shop.example", "60"⟩
        (.up [⟨1, "01001", "Springfield", "MA"⟩]) (fun _ => none)).backendQuery
      = some ("", true) ∧
    ("" : String) ≠ "springfield" ∧
    searchQueryOf ⟨some "", some "springfield"⟩ = ⟨"", 1⟩ := by
  exact ⟨rfl, by decide, rfl⟩

/-- C10 (amended): for every GET request with `query` present but empty
and `search` present and non-empty, validation does not fail (no 400);
the `search` value is what the length validation inspects (`entryOf`),
the request is still flagged autocomplete since `query` is non-null, but
the effective search term handed on is the **empty `query` value**
(`query ?? search`), not the `search` value. -/
theorem c10_empty_query_with_search (req : Req) (env : Env) (db : DB)
    (cache : String → Option Resp) (s : String)
    (hm : req.method = "GET") (hq : req.params.query = some "")
    (hs : req.params.search = some s) (hne : s ≠ "") :
    detectEdgeCases req.params ≠ .badRequest ∧
    entryOf req.params = s ∧
    searchQueryOf req.params = ⟨"", 1⟩ ∧
    statusOf (fetchHandler req env db cache) ≠ some 400 := by
  have h1 : truthy req.params.query = false := by simp [truthy, hq]
  have h2 : truthy req.params.search = true := by simp [truthy, hs, hne]
  have hnb : detectEdgeCases req.params ≠ .badRequest := by
    unfold detectEdgeCases
    rw [h1, h2]
    simp only [Bool.not_false, Bool.not_true, Bool.and_false, Bool.false_and,
      Bool.false_eq_true, if_false]
    split <;> simp
  refine ⟨hnb, ?_, ?_, ?_⟩
  · simp [entryOf, h1, hs]
  · simp [searchQueryOf, hq]
  · cases hedge : detectEdgeCases req.params with
    | badRequest => exact absurd hedge hnb
    | shortCircuitEmpty =>
      simp [fetchHandler, hm, hedge, statusOf, buildResultsResponse, buildResponse]
    | proceed =>
      cases hc : cache (cacheKeyRequestUrl req.params) with
      | none =>
        cases hsz : searchZipCodes (searchQueryOf req.params).search
            ((searchQueryOf req.params).autocomplete == 1) db with
        | error e =>
          simp [fetchHandler, hm, hedge, hc, hsz, statusOf, buildResponse]
        | ok results =>
          simp [fetchHandler, hm, hedge, hc, hsz, statusOf, buildResultsResponse,
            buildResponse]
      | some e =>
        cases hpr : processResults (some e) with
        | error err => simp [fetchHandler, hm, hedge, hc, hpr, statusOf]
        | ok results =>
          simp [fetchHandler, hm, hedge, hc, hpr, statusOf, buildResultsResponse,
            buildResponse]

/-- C10 witness: `query=` together with `search=springfield`. -/
theorem c10_empty_query_with_search_witness :
    detectEdgeCases ⟨some "", some "springfield"⟩ ≠ .badRequest ∧
    entryOf ⟨some "", some "springfield"⟩ = "springfield" ∧
    searchQueryOf ⟨some "", some "springfield"⟩ = ⟨"", 1⟩ ∧
    statusOf (fetchHandler ⟨"GET", none, ⟨some "", some "springfield"⟩⟩
        ⟨"mongodb://db", "https://app.example", "300"⟩ (.up []) (fun _ => none))
      ≠ some 400 :=
  c10_empty_query_with_search ⟨"GET", none, ⟨some "", some "springfield"⟩⟩
    ⟨"mongodb://db", "https://app.example", "300"⟩ (.up []) (fun _ => none)
    "springfield" rfl rfl rfl (by decide)

/-- Every response the handler ever hands to `cache.put` is a results
response, so its body is the serialized wrapper object around the result
array (`JSON.stringify({ results })`): the JSON-body hypothesis on stored
entries in the cache-hit claim is satisfied by every entry this worker
itself stores, with the wrapped-array value. -/
theorem storePut_wellFormed (req : Req) (env : Env) (db : DB)
    (cache : String → Option Resp) (k : String) (resp : Resp)
    (h : (fetchHandler req env db cache).storePut = some (k, resp)) :
    ∃ results, resp.body = .jsonVal (.wrap (.arr results)) := by
  by_cases hm : req.method = "OPTIONS"
  · simp [fetchHandler, hm] at h
  by_cases hgh : req.method = "GET" ∨ req.method = "HEAD"
  · rcases hgh with hm2 | hm2
    · by_cases hh : req.method = "HEAD"
      · exact absurd (hm2.symm.trans hh) (by decide)
      cases hedge : detectEdgeCases req.params with
      | badRequest => simp [fetchHandler, hm, hm2, hedge] at h
      | shortCircuitEmpty => simp [fetchHandler, hm, hm2, hedge] at h
      | proceed =>
        cases hc : cache (cacheKeyRequestUrl req.params) with
        | some e =>
          cases hpr : processResults (some e) with
          | error err => simp [fetchHandler, hm, hm2, hedge, hc, hpr] at h
          | ok results => simp [fetchHandler, hm, hm2, hedge, hc, hpr] at h
        | none =>
          cases hsz : searchZipCodes (searchQueryOf req.params).search
              ((searchQueryOf req.params).autocomplete == 1) db with
          | error e => simp [fetchHandler, hm, hm2, hedge, hc, hsz] at h
          | ok results =>
            refine ⟨results, ?_⟩
            have hout : (fetchHandler req env db cache).storePut =
                some (cacheKeyRequestUrl req.params,
                  buildResultsResponse (.arr results) (originOf req env)
                    (cacheTtlOf env.cacheTtlStr)) := by
              simp [fetchHandler, hm, hm2, hedge, hc, hsz]
            rw [hout] at h
            rcases Option.some.inj h with h'
            rw [← (Prod.mk.inj h').2]
            rfl
    · simp [fetchHandler, hm, hm2] at h
  · simp [fetchHandler, hm, hgh] at h

/-- C3: for a valid GET request (one that neither fails validation nor
short-circuits) whose cache-key lookup returns a stored entry, the
handler answers 200 built from the cached entry — the entry's parsed JSON
value `v` is handed straight back into `buildResultsResponse`, which
re-wraps it (so a worker-stored entry, a wrapper object itself, is served
double-wrapped; the model preserves this quirk) — `searchZipCodes` is not
invoked; and whenever a cache store is attempted at all, the lookup was a
miss. -/
theorem c3_cache_hit_serves_cached (req : Req) (env : Env) (db : DB)
    (cache : String → Option Resp) (hm : req.method = "GET") :
    (∀ e v, cache (cacheKeyRequestUrl req.params) = some e →
        e.body = .jsonVal v →
        detectEdgeCases req.params = .proceed →
        fetchHandler req env db cache =
          { resp := .ok (buildResultsResponse v (originOf req env)
              (cacheTtlOf env.cacheTtlStr)),
            backendQuery := none, storePut := none } ∧
        statusOf (fetchHandler req env db cache) = some 200) ∧
    ((fetchHandler req env db cache).storePut ≠ none →
        cache (cacheKeyRequestUrl req.params) = none) := by
  constructor
  · intro e v hc hb hedge
    have hpr : processResults (some e) = .ok v := by
      simp [processResults, hb]
    have hout : fetchHandler req env db cache =
        { resp := .ok (buildResultsResponse v (originOf req env)
            (cacheTtlOf env.cacheTtlStr)),
          backendQuery := none, storePut := none } := by
      simp [fetchHandler, hm, hedge, hc, hpr]
    exact ⟨hout, by rw [hout]; rfl⟩
  · intro hsp
    cases hc : cache (cacheKeyRequestUrl req.params) with
    | none => rfl
    | some e =>
      exfalso
      apply hsp
      cases hedge : detectEdgeCases req.params with
      | badRequest => simp [fetchHandler, hm, hedge]
      | shortCircuitEmpty => simp [fetchHandler, hm, hedge]
      | proceed =>
        cases hpr : processResults (some e) with
        | error err => simp [fetchHandler, hm, hedge, hc, hpr]
        | ok results => simp [fetchHandler, hm, hedge, hc, hpr]

/-- C3 witness: a hit on an entry of the shape the worker itself stores
(with the database even unreachable) is served from the cache — with the
stored wrapper value re-wrapped — and a store is only being attempted for
a key the lookup missed. -/
theorem c3_cache_hit_serves_cached_witness :
    (fetchHandler ⟨"GET", none, ⟨some "springfield", none⟩⟩
        ⟨"mongodb://db", "https://app.example", "300"⟩ .down
        (fun k => if k = "https://cache.internal/zip-search:springfield"
          then some ⟨200, .jsonVal (.wrap (.arr [⟨"01001", "Springfield"⟩])),
            [("content-type", "application/json")]⟩
          else none) =
      { resp := .ok (buildResultsResponse (.wrap (.arr [⟨"01001", "Springfield"⟩]))
          (originOf ⟨"GET", none, ⟨some "springfield", none⟩⟩
            ⟨"mongodb://db", "https://app.example", "300"⟩)
          (cacheTtlOf "300")),
        backendQuery := none, storePut := none } ∧
      statusOf (fetchHandler ⟨"GET", none, ⟨some "springfield", none⟩⟩
        ⟨"mongodb://db", "https://app.example", "300"⟩ .down
        (fun k => if k = "https://cache.internal/zip-search:springfield"
          then some ⟨200, .jsonVal (.wrap (.arr [⟨"01001", "Springfield"⟩])),
            [("content-type", "application/json")]⟩
          else none)) = some 200) ∧
    ((fun _ => (none : Option Resp)) (cacheKeyRequestUrl ⟨some "springfield", none⟩)
      = none) := by
  constructor
  · exact (c3_cache_hit_serves_cached ⟨"GET", none, ⟨some "springfield", none⟩⟩
      ⟨"mongodb://db", "https://app.example", "300"⟩ .down _ rfl).1
      ⟨200, .jsonVal (.wrap (.arr [⟨"01001", "Springfield"⟩])),
        [("content-type", "application/json")]⟩
      (.wrap (.arr [⟨"01001", "Springfield"⟩])) (by decide) rfl rfl
  · exact (c3_cache_hit_serves_cached ⟨"GET", none, ⟨some "springfield", none⟩⟩
      ⟨"mongodb://db", "https://app.example", "300"⟩
      (.up [⟨1, "01001", "Springfield", "MA"⟩]) (fun _ => none) rfl).2
      (by decide)

/-- The double-wrap quirk pinned concretely: re-serving the entry the
worker stores for `springfield` yields the body
`{"results":{"results":[{"zip":"01001","name":"Springfield"}]}}`,
not the stored `{"results":[...]}` string. -/
theorem cache_hit_double_wrap :
    bodyOf (fetchHandler ⟨"GET", none, ⟨some "springfield", none⟩⟩
        ⟨"mongodb://db", "https://app.example", "300"⟩ .down
        (fun k => if k = "https://cache.internal/zip-search:springfield"
          then some ⟨200, .jsonVal (.wrap (.arr [⟨"01001", "Springfield"⟩])),
            [("content-type", "application/json")]⟩
          else none))
      = some ("\x7b\"results\":\x7b\"results\":[\x7b\"zip\":\"01001\",\"name\":\"Springfield\"\x7d]\x7d\x7d") := by
  decide

/-- The access-control headers of a results response are present exactly
when the `origin` argument is truthy. -/
theorem hasAccessControl_buildResultsResponse (results : JsVal)
    (origin : Option String) (ttl : Int) :
    hasAccessControl (buildResultsResponse results origin ttl) = truthy origin := by
  unfold hasAccessControl buildResultsResponse buildResponse
  cases h : truthy origin <;> simp [h, setCorsHeaders, List.any_append]

/-- When the origin header matches, the computed origin is the domain. -/
theorem originOf_eq_some (req : Req) (env : Env)
    (h : req.origin = some env.domain) : originOf req env = some env.domain := by
  simp [originOf, hasValidOrigin, h]

/-- When the origin header differs (or is absent), the computed origin is
null. -/
theorem originOf_eq_none (req : Req) (env : Env)
    (h : req.origin ≠ some env.domain) : originOf req env = none := by
  simp [originOf, hasValidOrigin, h]

/-- The computed origin is truthy exactly when the header matches a
non-empty configured domain. -/
theorem truthy_originOf (req : Req) (env : Env) :
    truthy (originOf req env) = true ↔
      (req.origin = some env.domain ∧ env.domain ≠ "") := by
  constructor
  · intro ht
    by_cases hv : req.origin = some env.domain
    · refine ⟨hv, ?_⟩
      rw [originOf_eq_some req env hv] at ht
      simpa [truthy] using ht
    · rw [originOf_eq_none req env hv] at ht
      cases ht
  · rintro ⟨hv, hd⟩
    rw [originOf_eq_some req env hv]
    simpa [truthy] using hd

/-- Every 200 response of a GET invocation is a results response built
with the computed origin and TTL. -/
theorem get_ok200_shape (req : Req) (env : Env) (db : DB)
    (cache : String → Option Resp) (r : Resp) (hm : req.method = "GET")
    (hr : (fetchHandler req env db cache).resp = .ok r) (h200 : r.status = 200) :
    ∃ v, r = buildResultsResponse v (originOf req env)
      (cacheTtlOf env.cacheTtlStr) := by
  cases hedge : detectEdgeCases req.params with
  | badRequest =>
    have hout : (fetchHandler req env db cache).resp =
        .ok (buildResponse 400 (.text "Bad Request") none) := by
      simp [fetchHandler, hm, hedge]
    rw [hout] at hr
    rcases HandlerResult.ok.inj hr with rfl
    simp [buildResponse] at h200
  | shortCircuitEmpty =>
    have hout : (fetchHandler req env db cache).resp =
        .ok (buildResultsResponse (.arr []) (originOf req env)
          (cacheTtlOf env.cacheTtlStr)) := by
      simp [fetchHandler, hm, hedge]
    rw [hout] at hr
    exact ⟨.arr [], (HandlerResult.ok.inj hr).symm⟩
  | proceed =>
    cases hc : cache (cacheKeyRequestUrl req.params) with
    | none =>
      cases hsz : searchZipCodes (searchQueryOf req.params).search
          ((searchQueryOf req.params).autocomplete == 1) db with
      | error e =>
        have hout : (fetchHandler req env db cache).resp =
            .ok (buildResponse 500 (.text "Internal Server Error") none) := by
          simp [fetchHandler, hm, hedge, hc, hsz]
        rw [hout] at hr
        rcases HandlerResult.ok.inj hr with rfl
        simp [buildResponse] at h200
      | ok results =>
        have hout : (fetchHandler req env db cache).resp =
            .ok (buildResultsResponse (.arr results) (originOf req env)
              (cacheTtlOf env.cacheTtlStr)) := by
          simp [fetchHandler, hm, hedge, hc, hsz]
        rw [hout] at hr
        exact ⟨.arr results, (HandlerResult.ok.inj hr).symm⟩
    | some e =>
      cases hpr : processResults (some e) with
      | error err =>
        have hout : (fetchHandler req env db cache).resp = .thrown err := by
          simp [fetchHandler, hm, hedge, hc, hpr]
        rw [hout] at hr
        cases hr
      | ok results =>
        have hout : (fetchHandler req env db cache).resp =
            .ok (buildResultsResponse results (originOf req env)
              (cacheTtlOf env.cacheTtlStr)) := by
          simp [fetchHandler, hm, hedge, hc, hpr]
        rw [hout] at hr
        exact ⟨results, (HandlerResult.ok.inj hr).symm⟩

/-- C6 counterexample: with the configured domain empty and a request
whose `Origin` header is the (equal) empty string, the 200 JSON response
carries no access-control headers even though the origin equals the
configured domain — the empty matched origin is JS-falsy, so the spread
skips the CORS headers. -/
theorem c6_counterexample :
    hasValidOrigin ⟨"GET", some "", ⟨some "abc", none⟩⟩ ⟨"mongodb://db", "", "300"⟩
      = true ∧
    statusOf (fetchHandler ⟨"GET", some "", ⟨some "abc", none⟩⟩
        ⟨"mongodb://db", "", "300"⟩ (.up []) (fun _ => none)) = some 200 ∧
    acOf (fetchHandler ⟨"GET", some "", ⟨some "abc", none⟩⟩
        ⟨"mongodb://db", "", "300"⟩ (.up []) (fun _ => none)) = some false := by
  exact ⟨rfl, rfl, by decide⟩

/-- C6 (amended): on every 200 JSON response of a GET request, CORS
headers are attached if and only if the request's `Origin` header equals
the configured domain **and the configured domain is non-empty** (the
matched origin must be JS-truthy); when the origin differs or is absent,
no access-control headers are attached. -/
theorem c6_cors_gating (req : Req) (env : Env) (db : DB)
    (cache : String → Option Resp) (r : Resp) (hm : req.method = "GET")
    (hr : (fetchHandler req env db cache).resp = .ok r) (h200 : r.status = 200) :
    hasAccessControl r = true ↔
      (req.origin = some env.domain ∧ env.domain ≠ "") := by
  rcases get_ok200_shape req env db cache r hm hr h200 with ⟨results, rfl⟩
  rw [hasAccessControl_buildResultsResponse]
  exact truthy_originOf req env

/-- C6 witness: a matching non-empty origin receives the CORS headers on
the 200 JSON response. -/
theorem c6_cors_gating_witness :
    hasAccessControl (buildResultsResponse (.arr []) (some "https://app.example") 300)
        = true ↔
      ((some "https://app.example" : Option String) = some "https://app.example" ∧
        ("https://app.example" : String) ≠ "") :=
  c6_cors_gating ⟨"GET", some "https://app.example", ⟨some "abc", none⟩⟩
    ⟨"mongodb://db", "https://app.example", "300"⟩ (.up []) (fun _ => none)
    (buildResultsResponse (.arr []) (some "https://app.example") 300) rfl rfl rfl

/-- A decimal digit is not a JS whitespace character. -/
theorem digit_not_jsWhitespace (c : Char) (h : c.isDigit = true) :
    isJsWhitespace c = false := by
  by_contra hw
  rw [Bool.not_eq_false] at hw
  unfold isJsWhitespace at hw
  simp only [Bool.or_eq_true, decide_eq_true_eq] at hw
  rcases hw with ((((rfl | rfl) | rfl) | rfl) | rfl) | rfl <;>
    exact absurd h (by decide)

/-- On a nonempty all-digit string, `parseIntBase10` yields the standard
decimal digit fold. -/
theorem parseIntBase10_of_digits (s : String) (hne : s.data ≠ [])
    (hall : ∀ c ∈ s.data, c.isDigit = true) :
    parseIntBase10 s =
      some ((s.data.foldl (fun n c => n * 10 + (c.toNat - '0'.toNat)) 0 : Nat) : Int) := by
  unfold parseIntBase10
  rcases hd : s.data with _ | ⟨c, rest⟩
  · exact absurd hd hne
  have hc : c.isDigit = true := hall c (by rw [hd]; exact List.mem_cons_self _ _)
  have hdrop : (c :: rest).dropWhile isJsWhitespace = c :: rest := by
    simp [List.dropWhile_cons, digit_not_jsWhitespace c hc]
  simp only [hdrop]
  have hcm : ¬(c = '-') := by rintro rfl; exact absurd hc (by decide)
  have hcp : ¬(c = '+') := by rintro rfl; exact absurd hc (by decide)
  rw [if_neg hcm, if_neg hcp]
  unfold digitsVal
  have htake : (c :: rest).takeWhile (fun x => x.isDigit) = c :: rest := by
    rw [List.takeWhile_eq_self_iff]
    intro x hx
    exact hall x (by rw [hd]; exact hx)
  simp only [htake, List.isEmpty_cons, if_false, Option.map_some']
  rfl

/-- C5 counterexample: the configured string `-5` does not denote a valid
non-negative integer, yet the TTL used is `-5`, not the default 300 —
`parseInt` parses the sign, so `isNaN` does not trigger the default. -/
theorem c5_counterexample :
    String.toNat? "-5" = none ∧ cacheTtlOf "-5" = -5 ∧ ((-5 : Int) ≠ 300) := by
  refine ⟨?_, by decide, by decide⟩
  simp [String.toNat?, String.isNat, String.all_eq, String.isEmpty]

/-- C5 (amended): the TTL is the JS `parseInt(·, 10)` value of the
configured `CACHE_TTL` whenever that parse yields a number — including
negative values and values read off a numeric prefix — and the default
300 is used exactly when `parseInt` yields `NaN`.  In particular, for
every valid non-negative integer string the TTL equals its value. -/
theorem c5_ttl_parse (s : String) :
    (parseIntBase10 s = none → cacheTtlOf s = 300) ∧
    (∀ n : Nat, s.toNat? = some n → cacheTtlOf s = (n : Int)) := by
  constructor
  · intro h
    unfold cacheTtlOf
    rw [h]
  · intro n h
    rw [String.toNat?] at h
    split at h
    case isTrue hnat =>
      rw [String.isNat, Bool.and_eq_true] at hnat
      rcases hnat with ⟨hne', hall'⟩
      have hne : s.data ≠ [] := by
        intro hempty
        rw [Bool.not_eq_true'] at hne'
        have hs : s = "" := String.ext (by simp [hempty])
        rw [hs] at hne'
        cases hne'
      have hall : ∀ c ∈ s.data, c.isDigit = true := by
        intro c hcmem
        rw [String.all_eq] at hall'
        exact List.all_eq_true.mp hall' c hcmem
      have hfold := Option.some.inj h
      rw [String.foldl_eq] at hfold
      unfold cacheTtlOf
      rw [parseIntBase10_of_digits s hne hall, hfold]
    case isFalse => cases h

/-- C5 witness: an invalid string gets the default, a valid non-negative
integer string gets its value. -/
theorem c5_ttl_parse_witness :
    cacheTtlOf "not-a-number" = 300 ∧ cacheTtlOf "42" = (42 : Int) := by
  constructor
  · exact (c5_ttl_parse "not-a-number").1 (by decide)
  · refine (c5_ttl_parse "42").2 42 ?_
    have h1 : ("42" : String).isNat = true := by
      simp [String.isNat, String.all_eq]
      decide
    simp [String.toNat?, h1, String.foldl_eq]

end ZipWorker
